import Mathlib

/-!
Shallow embedding of `sign_helper_example/ecc_sign_helper.py`, a CLI helper
that signs a pre-computed SHA-384 digest with an ECDSA P-384 private key.

The file system is modelled as an association list from paths to byte
contents, a byte being a `Nat` (values below 256 in practice).  Standard
input is a raw string; `sys.stdin.readline()` and `str.strip()` are
modelled character by character.  The external `cryptography` library is
abstracted as a `CryptoLib` record: its single operation consumes the PEM
bytes of the key file, the digest bytes and a randomness seed (ECDSA is
randomized), and either returns the DER signature bytes or raises an
exception (`Except.error`).  A Python process that ends in an uncaught
exception prints a traceback on stderr and exits with status 1; `sys.exit 1`
also exits with status 1; a normal return from `main` exits with status 0.
-/

set_option autoImplicit false

namespace EccSignHelper

/-- Byte strings are lists of naturals. -/
abbrev Bytes := List Nat

/-- The file system: an association list from paths to raw byte contents. -/
abbrev FS := List (String × Bytes)

/-- First-match lookup of a path, `none` when the file does not exist
(`os.path.exists` is false / `open` raises `FileNotFoundError`). -/
def lookupFile : FS → String → Option Bytes
  | [], _ => none
  | (q, b) :: rest, p => if q = p then some b else lookupFile rest p

/-- `open(p, "wb")` followed by `write b`: replace the first entry for `p`,
or create the file when absent. -/
def writeFile : FS → String → Bytes → FS
  | [], p, b => [(p, b)]
  | (q, c) :: rest, p, b =>
    if q = p then (q, b) :: rest else (q, c) :: writeFile rest p b

/-- Value of a hexadecimal digit character, `none` for a non-hex character
(`binascii.unhexlify` accepts both lowercase and uppercase digits). -/
def hexDigitVal (c : Char) : Option Nat :=
  if 48 ≤ c.toNat ∧ c.toNat ≤ 57 then some (c.toNat - 48)
  else if 97 ≤ c.toNat ∧ c.toNat ≤ 102 then some (c.toNat - 87)
  else if 65 ≤ c.toNat ∧ c.toNat ≤ 70 then some (c.toNat - 55)
  else none

/-- `binascii.unhexlify` on a character list: pairs of hex digits become
bytes; an odd-length or non-hex input raises `binascii.Error` (`none`). -/
def unhexChars : List Char → Option Bytes
  | [] => some []
  | [_] => none
  | c1 :: c2 :: rest =>
    match hexDigitVal c1, hexDigitVal c2, unhexChars rest with
    | some hi, some lo, some bs => some ((16 * hi + lo) :: bs)
    | _, _, _ => none

/-- `binascii.unhexlify` on a string. -/
def unhexlify (s : String) : Option Bytes :=
  unhexChars s.data

/-- Lowercase hexadecimal digit for a value below 16. -/
def hexDigitChar (v : Nat) : Char :=
  if v < 10 then Char.ofNat (48 + v) else Char.ofNat (87 + v)

/-- `binascii.hexlify(...).decode()` on a byte list: two lowercase hex
digits per byte. -/
def hexChars : Bytes → List Char
  | [] => []
  | b :: bs => hexDigitChar (b / 16 % 16) :: hexDigitChar (b % 16) :: hexChars bs

/-- `binascii.hexlify(...).decode()` on a byte string. -/
def hexlify (b : Bytes) : String :=
  ⟨hexChars b⟩

/-- Whitespace characters removed by Python `str.strip()` (ASCII part). -/
def isPySpace (c : Char) : Bool :=
  c = ' ' ∨ c = '\t' ∨ c = '\n' ∨ c = '\r' ∨ c = '\x0b' ∨ c = '\x0c'

/-- Python `str.strip()`: drop whitespace from both ends. -/
def pyStrip (s : String) : String :=
  ⟨((s.data.dropWhile isPySpace).reverse.dropWhile isPySpace).reverse⟩

/-- `sys.stdin.readline()` on a character list: everything up to and
including the first newline (the whole input when it has no newline). -/
def readlineChars : List Char → List Char
  | [] => []
  | c :: cs => if c = '\n' then [c] else c :: readlineChars cs

/-- `sys.stdin.readline()`: the first line of standard input, including its
trailing newline when present. -/
def readline (s : String) : String :=
  ⟨readlineChars s.data⟩

/-- The external `cryptography` library, abstracted.  `signPem pem digest
rand` models `load_pem_private_key` on `pem` followed by
`private_key.sign(digest, ec.ECDSA(Prehashed(hashes.SHA384())))` with
randomness seed `rand`; `Except.error` is a raised exception rendered by
its message. -/
structure CryptoLib where
  signPem : Bytes → Bytes → Nat → Except String Bytes

/-- Observable outcome of a process run: exit status, the bytes written to
stdout, the list of messages written to stderr (in order), and the final
file system. -/
structure Result where
  exitCode : Nat
  stdout : String
  stderr : List String
  fs : FS
deriving DecidableEq, Repr

/-- The interpreter's rendering of an uncaught exception on stderr. -/
def traceback (e : String) : String :=
  "Traceback (most recent call last): " ++ e

/-- `sign_digest(digest, key_path)`: load the PEM private key from
`key_path` (raising `FileNotFoundError` when the file is missing) and sign
the pre-hashed digest with ECDSA-P384 via the library. -/
def sign_digest (lib : CryptoLib) (fs : FS) (rand : Nat)
    (digest : Bytes) (key_path : String) : Except String Bytes :=
  match lookupFile fs key_path with
  | none => .error ("FileNotFoundError: " ++ key_path)
  | some pem => lib.signPem pem digest rand

/-- `sign_from_stdin(key_path)`: read one line from stdin, strip it, treat
it as a hex digest, sign, and write the hex signature to stdout. -/
def sign_from_stdin (lib : CryptoLib) (fs : FS) (rand : Nat)
    (key_path : String) (stdin : String) : Result :=
  let digest_hex := pyStrip (readline stdin)
  if digest_hex = "" then
    ⟨1, "", ["Error: No digest provided via stdin"], fs⟩
  else
    match unhexlify digest_hex with
    | none =>
      ⟨1, "", [traceback "binascii.Error"], fs⟩
    | some digest =>
      let diag := "[STDIN MODE] Signing digest:\n " ++ digest_hex
      match sign_digest lib fs rand digest key_path with
      | .error e => ⟨1, "", [diag, traceback e], fs⟩
      | .ok signature =>
        let sig_hex := hexlify signature
        ⟨0, sig_hex ++ "\n",
          [diag, "Signature generated (DER hex): " ++ sig_hex], fs⟩

/-- `sign_by_file(key_path, input_path)`: read the digest bytes from the
input file, sign them, and overwrite the same file with the signature. -/
def sign_by_file (lib : CryptoLib) (fs : FS) (rand : Nat)
    (key_path input_path : String) : Result :=
  match lookupFile fs input_path with
  | none =>
    ⟨1, "", ["Error: input file " ++ input_path ++ " does not exist"], fs⟩
  | some digest =>
    let diag := "[FILE MODE] Signing digest from file: " ++ input_path
    match sign_digest lib fs rand digest key_path with
    | .error e => ⟨1, "", [diag, traceback e], fs⟩
    | .ok signature =>
      ⟨0, "", [diag, "Signature written back to file: " ++ input_path],
        writeFile fs input_path signature⟩

/-- The parsed command line: `--key KEY`, `--by-file`, `--input INPUT`
(`input = none` when the option is absent). -/
structure Args where
  key : String
  by_file : Bool
  input : Option String
deriving DecidableEq, Repr

/-- The key-path selection table of `main`: `fw` and `man` map to hardcoded
PEM paths, anything else is an unknown key type. -/
def key_path_of (key : String) : Option String :=
  if key = "fw" then some "key/ast2700a1-default/own-fw-ecc-prvk.pem"
  else if key = "man" then some "key/ast2700a1-default/own-man-ecc-prvk.pem"
  else none

/-- `main()` after argument parsing: select the key path, then dispatch on
`--by-file` (requiring a non-empty `--input` in file mode). -/
def main (args : Args) (lib : CryptoLib) (fs : FS) (rand : Nat)
    (stdin : String) : Result :=
  match key_path_of args.key with
  | none => ⟨1, "", ["Unknown key type: " ++ args.key], fs⟩
  | some key_path =>
    if args.by_file then
      match args.input with
      | none =>
        ⟨1, "", ["Error: --input <path> is required when using --by-file"], fs⟩
      | some input_path =>
        if input_path = "" then
          ⟨1, "", ["Error: --input <path> is required when using --by-file"], fs⟩
        else
          let r := sign_by_file lib fs rand key_path input_path
          { r with stderr := ("Using input file: " ++ input_path) :: r.stderr }
    else
      sign_from_stdin lib fs rand key_path stdin

/-- Argparse behaviour for this parser, modelled on exact option tokens:
`--key` takes a value, `--by-file` is a flag, `--input` takes a value; an
unrecognized token or a missing required `--key` is a usage error, which
argparse reports on stderr and exits with status 2. -/
def parseLoop : List String → Option String → Bool → Option String →
    Except (List String) Args
  | [], key?, bf, inp =>
    match key? with
    | none => .error ["usage: ecc_sign_helper.py",
        "ecc_sign_helper.py: error: the following arguments are required: --key"]
    | some k => .ok ⟨k, bf, inp⟩
  | a :: rest, key?, bf, inp =>
    if a = "--by-file" then parseLoop rest key? true inp
    else if a = "--key" then
      match rest with
      | [] => .error ["usage: ecc_sign_helper.py",
          "ecc_sign_helper.py: error: argument --key: expected one argument"]
      | v :: rest2 => parseLoop rest2 (some v) bf inp
    else if a = "--input" then
      match rest with
      | [] => .error ["usage: ecc_sign_helper.py",
          "ecc_sign_helper.py: error: argument --input: expected one argument"]
      | v :: rest2 => parseLoop rest2 key? bf (some v)
    else
      .error ["usage: ecc_sign_helper.py",
        "ecc_sign_helper.py: error: unrecognized arguments: " ++ a]

/-- `parser.parse_args()` for the parser built in `main`. -/
def parse_args (argv : List String) : Except (List String) Args :=
  parseLoop argv none false none

/-- The whole process: parse the command line (usage errors exit with
status 2, as argparse does), then run `main`. -/
def runProgram (lib : CryptoLib) (fs : FS) (rand : Nat) (stdin : String)
    (argv : List String) : Result :=
  match parse_args argv with
  | .error msgs => ⟨2, "", msgs, fs⟩
  | .ok args => main args lib fs rand stdin

/-- A concrete library that accepts every request, used for witnesses. -/
def okLib : CryptoLib :=
  ⟨fun _ _ _ => .ok [48, 6, 2, 1, 1, 2, 1, 1]⟩

/-- A concrete library that rejects every request, used for witnesses. -/
def failLib : CryptoLib :=
  ⟨fun _ _ _ => .error "ValueError: digest size mismatch"⟩

/-- Modelled from the spec: the ECDSA group data used by the library's
signing routine (which is external to this repository).  `Pt` is the group
of points of a curve whose subgroup generated by the base point `G` has
order `n`; `xcoord` maps a point to the residue of its x-coordinate mod
`n`.  Scalars live in `ZMod n`. -/
structure ECParams (n : ℕ) (Pt : Type) [AddCommGroup Pt] [Module (ZMod n) Pt] where
  G : Pt
  xcoord : Pt → ZMod n

/-- Modelled from the spec: textbook ECDSA signing with private key `d`,
message representative `z` (the prehashed digest reduced mod `n`) and
ephemeral nonce `k`; `none` models the degenerate cases the algorithm
rejects (`k = 0`, `r = 0` or `s = 0`). -/
def ecdsaSign {n : ℕ} {Pt : Type} [AddCommGroup Pt] [Module (ZMod n) Pt]
    (P : ECParams n Pt) (d z k : ZMod n) : Option (ZMod n × ZMod n) :=
  if k = 0 then none
  else if P.xcoord (k • P.G) = 0 ∨ k⁻¹ * (z + P.xcoord (k • P.G) * d) = 0 then none
  else some (P.xcoord (k • P.G), k⁻¹ * (z + P.xcoord (k • P.G) * d))

/-- Modelled from the spec: textbook ECDSA verification of a signature
`sig = (r, s)` on message representative `z` against public key `Q`. -/
def ecdsaVerify {n : ℕ} {Pt : Type} [AddCommGroup Pt] [Module (ZMod n) Pt]
    (P : ECParams n Pt) (Q : Pt) (z : ZMod n) (sig : ZMod n × ZMod n) : Bool :=
  if sig.1 = 0 ∨ sig.2 = 0 then false
  else decide (P.xcoord ((z * sig.2⁻¹) • P.G + (sig.1 * sig.2⁻¹) • Q) = sig.1)

/-- Modelled from the spec: a `CryptoLib` whose signing routine is the
ECDSA model.  `decodeKey` extracts the private scalar from the PEM bytes,
`decodeDigest` reduces the digest to a scalar, `encodeSig` is the DER
encoding of the signature pair, and `nonce` draws the ephemeral scalar
from the randomness seed.  A degenerate signature is a raised exception. -/
def ecdsaLib {n : ℕ} {Pt : Type} [AddCommGroup Pt] [Module (ZMod n) Pt]
    (P : ECParams n Pt) (decodeKey decodeDigest : Bytes → ZMod n)
    (encodeSig : ZMod n × ZMod n → Bytes) (nonce : Nat → ZMod n) : CryptoLib :=
  ⟨fun pem digest rand =>
    match ecdsaSign P (decodeKey pem) (decodeDigest digest) (nonce rand) with
    | none => .error "ValueError: degenerate signature"
    | some rs => .ok (encodeSig rs)⟩

/-- A concrete instance of the ECDSA group data over the field with seven
elements, used to exhibit concrete signatures. -/
def egParams : ECParams 7 (ZMod 7) :=
  ⟨1, id⟩

instance : Fact (Nat.Prime 7) := ⟨by norm_num⟩

/-- A concrete ECDSA-backed library over `egParams`: every PEM decodes to
the private scalar 2, every digest reduces to 1, signatures are encoded as
their two component values, and the nonce is the seed reduced mod 7. -/
def egLib : CryptoLib :=
  ecdsaLib egParams (fun _ => 2) (fun _ => 1)
    (fun rs => [rs.1.val, rs.2.val]) (fun rand => (rand : ZMod 7))

end EccSignHelper

namespace EccSignHelper

theorem lookupFile_writeFile_self (fs : FS) (p : String) (b : Bytes) :
    lookupFile (writeFile fs p b) p = some b := by
  induction fs with
  | nil => simp [writeFile, lookupFile]
  | cons hd tl ih =>
    obtain ⟨q, c⟩ := hd
    by_cases hq : q = p
    · simp [writeFile, lookupFile, hq]
    · simp [writeFile, lookupFile, hq, ih]

theorem lookupFile_writeFile_ne (fs : FS) (p q : String) (b : Bytes)
    (h : q ≠ p) : lookupFile (writeFile fs p b) q = lookupFile fs q := by
  induction fs with
  | nil =>
    simp only [writeFile, lookupFile]
    rw [if_neg fun hc => h hc.symm]
  | cons hd tl ih =>
    obtain ⟨q', c⟩ := hd
    by_cases hq : q' = p
    · subst hq
      simp only [writeFile, if_pos rfl, lookupFile]
      rw [if_neg fun hc => h hc.symm, if_neg fun hc => h hc.symm]
    · simp [writeFile, lookupFile, hq, ih]

theorem ecdsaSign_verifies {n : ℕ} {Pt : Type} [Fact n.Prime]
    [AddCommGroup Pt] [Module (ZMod n) Pt]
    (P : ECParams n Pt) (d z k : ZMod n) (rs : ZMod n × ZMod n)
    (h : ecdsaSign P d z k = some rs) :
    ecdsaVerify P (d • P.G) z rs = true := by
  rw [ecdsaSign] at h
  split_ifs at h with hk hrz
  obtain rfl : (P.xcoord (k • P.G), k⁻¹ * (z + P.xcoord (k • P.G) * d)) = rs :=
    Option.some.inj h
  set r := P.xcoord (k • P.G) with hr_def
  set s := k⁻¹ * (z + r * d) with hs_def
  push_neg at hrz
  obtain ⟨hr, hs⟩ := hrz
  have hzrd : z + r * d ≠ 0 := by
    intro hc
    exact hs (by rw [hs_def, hc, mul_zero])
  have key : z * s⁻¹ + r * s⁻¹ * d = k := by
    rw [hs_def, mul_inv, inv_inv]
    field_simp
    ring
  rw [ecdsaVerify]
  rw [if_neg (by push_neg; exact ⟨hr, hs⟩)]
  simp only [decide_eq_true_eq]
  calc P.xcoord ((z * s⁻¹) • P.G + (r * s⁻¹) • (d • P.G))
      = P.xcoord ((z * s⁻¹) • P.G + ((r * s⁻¹) * d) • P.G) := by rw [smul_smul]
    _ = P.xcoord ((z * s⁻¹ + r * s⁻¹ * d) • P.G) := by rw [add_smul]
    _ = P.xcoord (k • P.G) := by rw [key]
    _ = r := hr_def.symm

/-- C1: in file mode with an existing input file, the program signs the
file's raw contents and the file's final contents are exactly the raw
signature bytes of its previous contents, with no other file modified,
nothing on stdout and exit status 0. -/
theorem file_mode_overwrites_input_with_signature
    (lib : CryptoLib) (fs : FS) (rand : Nat) (stdin : String)
    (kv ip kp : String) (pem d sig : Bytes)
    (hkp : key_path_of kv = some kp) (hip : ip ≠ "")
    (hin : lookupFile fs ip = some d)
    (hpem : lookupFile fs kp = some pem)
    (hsig : lib.signPem pem d rand = .ok sig) :
    (main ⟨kv, true, some ip⟩ lib fs rand stdin).exitCode = 0 ∧
    (main ⟨kv, true, some ip⟩ lib fs rand stdin).stdout = "" ∧
    (main ⟨kv, true, some ip⟩ lib fs rand stdin).fs = writeFile fs ip sig ∧
    lookupFile (main ⟨kv, true, some ip⟩ lib fs rand stdin).fs ip = some sig ∧
    ∀ p, p ≠ ip →
      lookupFile (main ⟨kv, true, some ip⟩ lib fs rand stdin).fs p = lookupFile fs p := by
  simp only [main, hkp, if_pos rfl, hip, if_neg hip, if_true,
    sign_by_file, hin, sign_digest, hpem, hsig]
  refine ⟨rfl, rfl, rfl, lookupFile_writeFile_self fs ip sig, fun p hp => ?_⟩
  exact lookupFile_writeFile_ne fs ip p sig hp

/-- C1 witness: a concrete run of file mode with the `fw` key. -/
theorem file_mode_overwrites_input_with_signature_witness :
    (main ⟨"fw", true, some "digest.bin"⟩ okLib
      [("digest.bin", [1, 2]), ("key/ast2700a1-default/own-fw-ecc-prvk.pem", [9])]
      0 "").exitCode = 0 ∧
    (main ⟨"fw", true, some "digest.bin"⟩ okLib
      [("digest.bin", [1, 2]), ("key/ast2700a1-default/own-fw-ecc-prvk.pem", [9])]
      0 "").stdout = "" ∧
    (main ⟨"fw", true, some "digest.bin"⟩ okLib
      [("digest.bin", [1, 2]), ("key/ast2700a1-default/own-fw-ecc-prvk.pem", [9])]
      0 "").fs =
      writeFile [("digest.bin", [1, 2]), ("key/ast2700a1-default/own-fw-ecc-prvk.pem", [9])]
        "digest.bin" [48, 6, 2, 1, 1, 2, 1, 1] ∧
    lookupFile (main ⟨"fw", true, some "digest.bin"⟩ okLib
      [("digest.bin", [1, 2]), ("key/ast2700a1-default/own-fw-ecc-prvk.pem", [9])]
      0 "").fs "digest.bin" = some [48, 6, 2, 1, 1, 2, 1, 1] ∧
    ∀ p, p ≠ "digest.bin" →
      lookupFile (main ⟨"fw", true, some "digest.bin"⟩ okLib
        [("digest.bin", [1, 2]), ("key/ast2700a1-default/own-fw-ecc-prvk.pem", [9])]
        0 "").fs p =
      lookupFile [("digest.bin", [1, 2]), ("key/ast2700a1-default/own-fw-ecc-prvk.pem", [9])] p :=
  file_mode_overwrites_input_with_signature okLib
    [("digest.bin", [1, 2]), ("key/ast2700a1-default/own-fw-ecc-prvk.pem", [9])]
    0 "" "fw" "digest.bin" "key/ast2700a1-default/own-fw-ecc-prvk.pem"
    [9] [1, 2] [48, 6, 2, 1, 1, 2, 1, 1]
    (by rfl) (by decide) (by rfl) (by rfl) (by rfl)

/-- C4: the key-selection table maps `fw` and `man` to their hardcoded PEM
paths, and any other `--key` value makes `main` report an unknown key type
on stderr and exit with status 1. -/
theorem key_arg_selects_hardcoded_path :
    key_path_of "fw" = some "key/ast2700a1-default/own-fw-ecc-prvk.pem" ∧
    key_path_of "man" = some "key/ast2700a1-default/own-man-ecc-prvk.pem" ∧
    ∀ (kv : String), kv ≠ "fw" → kv ≠ "man" →
      ∀ (bf : Bool) (inp : Option String) (lib : CryptoLib) (fs : FS)
        (rand : Nat) (stdin : String),
        main ⟨kv, bf, inp⟩ lib fs rand stdin =
          ⟨1, "", ["Unknown key type: " ++ kv], fs⟩ := by
  refine ⟨rfl, rfl, fun kv h1 h2 bf inp lib fs rand stdin => ?_⟩
  simp [main, key_path_of, h1, h2]

/-- C4 witness: a concrete unknown key value. -/
theorem key_arg_selects_hardcoded_path_witness :
    main ⟨"rot", false, none⟩ okLib [] 0 "" =
      ⟨1, "", ["Unknown key type: " ++ "rot"], []⟩ :=
  key_arg_selects_hardcoded_path.2.2 "rot" (by decide) (by decide)
    false none okLib [] 0 ""

end EccSignHelper

namespace EccSignHelper

theorem sign_from_stdin_cases (lib : CryptoLib) (fs : FS) (rand : Nat)
    (kp stdin : String) :
    (sign_from_stdin lib fs rand kp stdin).fs = fs ∧
    ((sign_from_stdin lib fs rand kp stdin).exitCode = 0 ∨
      ((sign_from_stdin lib fs rand kp stdin).exitCode = 1 ∧
        (sign_from_stdin lib fs rand kp stdin).stderr ≠ [])) := by
  simp only [sign_from_stdin]
  by_cases h0 : pyStrip (readline stdin) = ""
  · simp [h0]
  · rw [if_neg h0]
    rcases hx : unhexlify (pyStrip (readline stdin)) with _ | d
    · simp
    · simp only
      rcases hs : sign_digest lib fs rand d kp with e | sg <;> simp

theorem sign_by_file_cases (lib : CryptoLib) (fs : FS) (rand : Nat)
    (kp ip : String) :
    ((sign_by_file lib fs rand kp ip).exitCode = 0 ∨
      ((sign_by_file lib fs rand kp ip).exitCode = 1 ∧
        (sign_by_file lib fs rand kp ip).stderr ≠ [])) ∧
    ((sign_by_file lib fs rand kp ip).fs = fs ∨
      ∃ d pem sig, lookupFile fs ip = some d ∧ lookupFile fs kp = some pem ∧
        lib.signPem pem d rand = .ok sig ∧
        (sign_by_file lib fs rand kp ip).fs = writeFile fs ip sig) := by
  simp only [sign_by_file, sign_digest]
  rcases hin : lookupFile fs ip with _ | d
  · simp
  · rcases hpem : lookupFile fs kp with _ | pem
    · simp
    · rcases hs : lib.signPem pem d rand with e | sg
      · simp [hs]
      · simp [hin, hpem, hs]

theorem main_exit_cases (args : Args) (lib : CryptoLib) (fs : FS) (rand : Nat)
    (stdin : String) :
    (main args lib fs rand stdin).exitCode = 0 ∨
      ((main args lib fs rand stdin).exitCode = 1 ∧
        (main args lib fs rand stdin).stderr ≠ []) := by
  obtain ⟨kv, bf, inp⟩ := args
  simp only [main]
  rcases hkp : key_path_of kv with _ | kp
  · simp
  · cases bf with
    | false => simpa using (sign_from_stdin_cases lib fs rand kp stdin).2
    | true =>
      rcases inp with _ | ip
      · simp
      · by_cases hip : ip = ""
        · simp [hip]
        · simp only [if_true, hip, if_neg hip]
          rcases (sign_by_file_cases lib fs rand kp ip).1 with h0 | ⟨h1, hne⟩
          · left
            simpa using h0
          · right
            exact ⟨by simpa using h1, by simp⟩

theorem parseLoop_error_ne_nil (l : List String) (k : Option String) (b : Bool)
    (i : Option String) (msgs : List String)
    (h : parseLoop l k b i = .error msgs) : msgs ≠ [] := by
  induction l, k, b, i using parseLoop.induct generalizing msgs
  all_goals rw [parseLoop.eq_def] at h
  all_goals simp_all
  all_goals rw [← h]
  all_goals simp

/-- C5: each of the four validation errors (empty digest on stdin, missing
input file, unknown key type, missing `--input` in file mode) writes a
message to stderr and exits with status 1, with nothing on stdout, the
file system unchanged, and no dependence on the signing library. -/
theorem validation_errors_exit_one :
    (∀ (kv kp : String) (inp : Option String) (lib : CryptoLib) (fs : FS)
        (rand : Nat) (stdin : String),
      key_path_of kv = some kp → pyStrip (readline stdin) = "" →
      main ⟨kv, false, inp⟩ lib fs rand stdin =
        ⟨1, "", ["Error: No digest provided via stdin"], fs⟩) ∧
    (∀ (kv kp ip : String) (lib : CryptoLib) (fs : FS) (rand : Nat) (stdin : String),
      key_path_of kv = some kp → ip ≠ "" → lookupFile fs ip = none →
      main ⟨kv, true, some ip⟩ lib fs rand stdin =
        ⟨1, "", ["Using input file: " ++ ip,
          "Error: input file " ++ ip ++ " does not exist"], fs⟩) ∧
    (∀ (kv : String) (bf : Bool) (inp : Option String) (lib : CryptoLib)
        (fs : FS) (rand : Nat) (stdin : String),
      key_path_of kv = none →
      main ⟨kv, bf, inp⟩ lib fs rand stdin =
        ⟨1, "", ["Unknown key type: " ++ kv], fs⟩) ∧
    (∀ (kv kp : String) (lib : CryptoLib) (fs : FS) (rand : Nat) (stdin : String),
      key_path_of kv = some kp →
      main ⟨kv, true, none⟩ lib fs rand stdin =
        ⟨1, "", ["Error: --input <path> is required when using --by-file"], fs⟩) := by
  refine ⟨fun kv kp inp lib fs rand stdin hkp h0 => ?_,
    fun kv kp ip lib fs rand stdin hkp hip hin => ?_,
    fun kv bf inp lib fs rand stdin hkp => ?_,
    fun kv kp lib fs rand stdin hkp => ?_⟩
  · simp [main, hkp, sign_from_stdin, h0]
  · simp [main, hkp, hip, sign_by_file, hin]
  · simp [main, hkp]
  · simp [main, hkp]

/-- C5 witness: a concrete run with a valid key and empty stdin. -/
theorem validation_errors_exit_one_witness :
    main ⟨"fw", false, none⟩ okLib [] 0 "" =
      ⟨1, "", ["Error: No digest provided via stdin"], []⟩ :=
  validation_errors_exit_one.1 "fw" "key/ast2700a1-default/own-fw-ecc-prvk.pem"
    none okLib [] 0 "" (by rfl) (by rfl)

/-- C6 counterexample: the invocation with no command-line arguments is a
failing invocation (nonempty stderr, nonzero exit status) whose exit
status is 2, not 1. -/
theorem missing_key_argument_exits_two :
    (runProgram okLib [] 0 "" []).exitCode = 2 ∧
    (runProgram okLib [] 0 "" []).stderr ≠ [] ∧
    ¬(runProgram okLib [] 0 "" []).exitCode = 1 := by
  refine ⟨rfl, by simp [runProgram, parse_args, parseLoop], by decide⟩

/-- C6 (amended): every failure after argument parsing is reported on
stderr and exits with status 1; an argument-parsing failure is reported on
stderr but exits with status 2, as argparse does. -/
theorem failures_reported_on_stderr :
    (∀ (args : Args) (lib : CryptoLib) (fs : FS) (rand : Nat) (stdin : String),
      (main args lib fs rand stdin).exitCode = 0 ∨
        ((main args lib fs rand stdin).exitCode = 1 ∧
          (main args lib fs rand stdin).stderr ≠ [])) ∧
    (∀ (lib : CryptoLib) (fs : FS) (rand : Nat) (stdin : String)
        (argv : List String),
      (runProgram lib fs rand stdin argv).exitCode = 0 ∨
        ((runProgram lib fs rand stdin argv).exitCode = 1 ∧
          (runProgram lib fs rand stdin argv).stderr ≠ []) ∨
        ((runProgram lib fs rand stdin argv).exitCode = 2 ∧
          (runProgram lib fs rand stdin argv).stderr ≠ [] ∧
          ∃ msgs, parse_args argv = Except.error msgs)) := by
  refine ⟨main_exit_cases, fun lib fs rand stdin argv => ?_⟩
  simp only [runProgram]
  rcases hp : parse_args argv with msgs | args
  · right; right
    refine ⟨rfl, ?_, msgs, rfl⟩
    simpa using parseLoop_error_ne_nil argv none false none msgs hp
  · simpa using main_exit_cases args lib fs rand stdin

/-- C7: a non-empty stripped stdin line that is not valid hexadecimal
makes the program exit with status 1 and write nothing to stdout (the
`binascii.Error` escapes as an uncaught exception). -/
theorem malformed_hex_exits_one
    (lib : CryptoLib) (fs : FS) (rand : Nat) (stdin : String)
    (kv kp : String) (inp : Option String)
    (hkp : key_path_of kv = some kp)
    (hne : pyStrip (readline stdin) ≠ "")
    (hbad : unhexlify (pyStrip (readline stdin)) = none) :
    main ⟨kv, false, inp⟩ lib fs rand stdin =
      ⟨1, "", [traceback "binascii.Error"], fs⟩ := by
  simp [main, hkp, sign_from_stdin, hne, hbad]

/-- C7 witness: stdin holding the line `xyz` (non-hex) with the `fw` key. -/
theorem malformed_hex_exits_one_witness :
    main ⟨"fw", false, none⟩ okLib [] 0 "xyz\nmore" =
      ⟨1, "", [traceback "binascii.Error"], []⟩ :=
  malformed_hex_exits_one okLib [] 0 "xyz\nmore" "fw"
    "key/ast2700a1-default/own-fw-ecc-prvk.pem" none (by rfl) (by decide) (by rfl)

end EccSignHelper

namespace EccSignHelper

/-- C2: in stdin/stdout mode, when the stripped first line of stdin is
non-empty valid hex and signing succeeds, the only bytes written to
stdout are the hex encoding of the DER signature followed by a single
newline; both diagnostics go to stderr, the file system is untouched and
the exit status is 0. -/
theorem stdin_mode_prints_hex_signature
    (lib : CryptoLib) (fs : FS) (rand : Nat) (stdin : String)
    (kv kp : String) (inp : Option String) (d pem sig : Bytes)
    (hkp : key_path_of kv = some kp)
    (hne : pyStrip (readline stdin) ≠ "")
    (hhex : unhexlify (pyStrip (readline stdin)) = some d)
    (hpem : lookupFile fs kp = some pem)
    (hsig : lib.signPem pem d rand = .ok sig) :
    main ⟨kv, false, inp⟩ lib fs rand stdin =
      ⟨0, hexlify sig ++ "\n",
        ["[STDIN MODE] Signing digest:\n " ++ pyStrip (readline stdin),
          "Signature generated (DER hex): " ++ hexlify sig], fs⟩ := by
  simp [main, hkp, sign_from_stdin, hne, hhex, sign_digest, hpem, hsig]

/-- C2 witness: the line ` ab ` (strips to the hex byte `ab`) with the
`fw` key present and the always-accepting library. -/
theorem stdin_mode_prints_hex_signature_witness :
    main ⟨"fw", false, none⟩ okLib
      [("key/ast2700a1-default/own-fw-ecc-prvk.pem", [9])] 0 " ab \nrest" =
      ⟨0, hexlify [48, 6, 2, 1, 1, 2, 1, 1] ++ "\n",
        ["[STDIN MODE] Signing digest:\n " ++ pyStrip (readline " ab \nrest"),
          "Signature generated (DER hex): " ++ hexlify [48, 6, 2, 1, 1, 2, 1, 1]],
        [("key/ast2700a1-default/own-fw-ecc-prvk.pem", [9])]⟩ :=
  stdin_mode_prints_hex_signature okLib
    [("key/ast2700a1-default/own-fw-ecc-prvk.pem", [9])] 0 " ab \nrest"
    "fw" "key/ast2700a1-default/own-fw-ecc-prvk.pem" none [171] [9]
    [48, 6, 2, 1, 1, 2, 1, 1] (by rfl) (by decide) (by rfl) (by rfl) (by rfl)

/-- C8: the input file is opened for writing only after signing succeeds:
either the run leaves the file system unchanged, or it was a file-mode run
in which the input file and key file were both readable and the library
returned a signature, and the only change is that signature overwriting
the input file. -/
theorem input_file_unchanged_on_signing_failure
    (args : Args) (lib : CryptoLib) (fs : FS) (rand : Nat) (stdin : String) :
    (main args lib fs rand stdin).fs = fs ∨
    (args.by_file = true ∧ ∃ ip kp d pem sig,
      args.input = some ip ∧ ip ≠ "" ∧ key_path_of args.key = some kp ∧
      lookupFile fs ip = some d ∧ lookupFile fs kp = some pem ∧
      lib.signPem pem d rand = .ok sig ∧
      (main args lib fs rand stdin).fs = writeFile fs ip sig) := by
  obtain ⟨kv, bf, inp⟩ := args
  simp only [main]
  rcases hkp : key_path_of kv with _ | kp
  · simp
  · cases bf with
    | false =>
      left
      simpa using (sign_from_stdin_cases lib fs rand kp stdin).1
    | true =>
      rcases inp with _ | ip
      · simp
      · by_cases hip : ip = ""
        · simp [hip]
        · simp only [if_true, hip, if_neg hip]
          rcases (sign_by_file_cases lib fs rand kp ip).2 with h0 |
            ⟨d, pem, sig, hin, hpem, hs, hw⟩
          · left
            simpa using h0
          · right
            refine ⟨?_, ip, kp, d, pem, sig, ?_, hip, ?_, hin, hpem, hs, ?_⟩ <;>
              simp_all

/-- C8 witness: a concrete failing file-mode run (missing key file) whose
file system is unchanged. -/
theorem input_file_unchanged_on_signing_failure_witness :
    (main ⟨"fw", true, some "digest.bin"⟩ okLib [("digest.bin", [1])] 0 "").fs =
        [("digest.bin", [1])] ∨
    ((⟨"fw", true, some "digest.bin"⟩ : Args).by_file = true ∧ ∃ ip kp d pem sig,
      (⟨"fw", true, some "digest.bin"⟩ : Args).input = some ip ∧ ip ≠ "" ∧
      key_path_of (⟨"fw", true, some "digest.bin"⟩ : Args).key = some kp ∧
      lookupFile [("digest.bin", [1])] ip = some d ∧
      lookupFile [("digest.bin", [1])] kp = some pem ∧
      okLib.signPem pem d 0 = .ok sig ∧
      (main ⟨"fw", true, some "digest.bin"⟩ okLib [("digest.bin", [1])] 0 "").fs =
        writeFile [("digest.bin", [1])] ip sig) :=
  input_file_unchanged_on_signing_failure ⟨"fw", true, some "digest.bin"⟩
    okLib [("digest.bin", [1])] 0 ""

/-- C9: the wrapper performs no digest-length validation: a digest of any
length (from the input file in file mode, or hex-decoded from stdin) is
handed to the library call unchanged, the run succeeding exactly when the
library accepts it and otherwise ending in the library's uncaught
exception (traceback on stderr, exit status 1), never in a wrapper-written
length check. -/
theorem no_wrapper_digest_length_check
    (lib : CryptoLib) (fs : FS) (rand : Nat)
    (kv kp ip : String) (d pem : Bytes)
    (hkp : key_path_of kv = some kp) (hip : ip ≠ "")
    (hin : lookupFile fs ip = some d) (hpem : lookupFile fs kp = some pem) :
    (∀ sig, lib.signPem pem d rand = .ok sig →
      ∀ stdin, main ⟨kv, true, some ip⟩ lib fs rand stdin =
        ⟨0, "", ["Using input file: " ++ ip,
          "[FILE MODE] Signing digest from file: " ++ ip,
          "Signature written back to file: " ++ ip], writeFile fs ip sig⟩) ∧
    (∀ e, lib.signPem pem d rand = .error e →
      ∀ stdin, main ⟨kv, true, some ip⟩ lib fs rand stdin =
        ⟨1, "", ["Using input file: " ++ ip,
          "[FILE MODE] Signing digest from file: " ++ ip, traceback e], fs⟩) ∧
    (∀ stdin dd, pyStrip (readline stdin) ≠ "" →
      unhexlify (pyStrip (readline stdin)) = some dd →
      ∀ e, lib.signPem pem dd rand = .error e →
      main ⟨kv, false, none⟩ lib fs rand stdin =
        ⟨1, "", ["[STDIN MODE] Signing digest:\n " ++ pyStrip (readline stdin),
          traceback e], fs⟩) := by
  refine ⟨fun sig hs stdin => ?_, fun e hs stdin => ?_,
    fun stdin dd hne hhex e hs => ?_⟩
  · simp [main, hkp, hip, sign_by_file, hin, sign_digest, hpem, hs]
  · simp [main, hkp, hip, sign_by_file, hin, sign_digest, hpem, hs]
  · simp [main, hkp, sign_from_stdin, hne, hhex, sign_digest, hpem, hs]

/-- C9 witness: a zero-byte input file (length 0, not 48) reaches the
library unchecked and its rejection surfaces as the traceback. -/
theorem no_wrapper_digest_length_check_witness :
    main ⟨"fw", true, some "empty.bin"⟩ failLib
      [("empty.bin", []), ("key/ast2700a1-default/own-fw-ecc-prvk.pem", [9])] 0 "" =
      ⟨1, "", ["Using input file: " ++ "empty.bin",
        "[FILE MODE] Signing digest from file: " ++ "empty.bin",
        traceback "ValueError: digest size mismatch"],
        [("empty.bin", []), ("key/ast2700a1-default/own-fw-ecc-prvk.pem", [9])]⟩ :=
  (no_wrapper_digest_length_check failLib
    [("empty.bin", []), ("key/ast2700a1-default/own-fw-ecc-prvk.pem", [9])] 0
    "fw" "key/ast2700a1-default/own-fw-ecc-prvk.pem" "empty.bin" [] [9]
    (by rfl) (by decide) (by rfl) (by rfl)).2.1
    "ValueError: digest size mismatch" (by rfl) ""

/-- C10: in stdin/stdout mode the outcome depends only on the first line
of stdin (content past the first newline is ignored), and in fact only on
that line with surrounding whitespace stripped. -/
theorem stdin_only_first_line_matters
    (args : Args) (lib : CryptoLib) (fs : FS) (rand : Nat)
    (hmode : args.by_file = false) :
    (∀ s₁ s₂, readline s₁ = readline s₂ →
      main args lib fs rand s₁ = main args lib fs rand s₂) ∧
    (∀ s₁ s₂, pyStrip (readline s₁) = pyStrip (readline s₂) →
      main args lib fs rand s₁ = main args lib fs rand s₂) := by
  have key : ∀ s₁ s₂, pyStrip (readline s₁) = pyStrip (readline s₂) →
      main args lib fs rand s₁ = main args lib fs rand s₂ := by
    intro s₁ s₂ h
    obtain ⟨kv, bf, inp⟩ := args
    simp only at hmode
    subst hmode
    simp only [main]
    rcases key_path_of kv with _ | kp
    · rfl
    · simp only [Bool.false_eq_true, if_false, sign_from_stdin, h]
  exact ⟨fun s₁ s₂ h => key s₁ s₂ (by rw [h]), key⟩

/-- C10 witness: stdin with extra lines and whitespace gives the same
outcome as the bare first line. -/
theorem stdin_only_first_line_matters_witness :
    main ⟨"fw", false, none⟩ okLib [] 0 " ab \nsecond line" =
      main ⟨"fw", false, none⟩ okLib [] 0 "ab" :=
  (stdin_only_first_line_matters ⟨"fw", false, none⟩ okLib [] 0 (by rfl)).2
    " ab \nsecond line" "ab" (by decide)

end EccSignHelper

namespace EccSignHelper

/-- C3: with the library's signing routine instantiated by the ECDSA
model, every signature `sign_digest` produces on a 48-byte digest (for
any run, i.e. any randomness seed) verifies against the corresponding
public key `d • G`; and two runs on the same digest and key file need not
produce equal signatures, as the concrete instance `egLib` shows with
seeds 1 and 2. -/
theorem sign_digest_verifies_and_is_randomized :
    (∀ (n : ℕ) (Pt : Type) [AddCommGroup Pt] [Module (ZMod n) Pt]
        [Fact n.Prime] (P : ECParams n Pt)
        (decodeKey decodeDigest : Bytes → ZMod n)
        (encodeSig : ZMod n × ZMod n → Bytes) (nonce : Nat → ZMod n)
        (fs : FS) (rand : Nat) (digest : Bytes) (key_path : String)
        (pem : Bytes) (rs : ZMod n × ZMod n),
      digest.length = 48 →
      lookupFile fs key_path = some pem →
      ecdsaSign P (decodeKey pem) (decodeDigest digest) (nonce rand) = some rs →
      sign_digest (ecdsaLib P decodeKey decodeDigest encodeSig nonce)
          fs rand digest key_path = .ok (encodeSig rs) ∧
      ecdsaVerify P (decodeKey pem • P.G) (decodeDigest digest) rs = true) ∧
    (sign_digest egLib [("k", [9])] 1 (List.replicate 48 0) "k" = .ok [1, 3] ∧
     sign_digest egLib [("k", [9])] 2 (List.replicate 48 0) "k" = .ok [2, 6] ∧
     ([1, 3] : Bytes) ≠ [2, 6]) := by
  constructor
  · intro n Pt _ _ _ P decodeKey decodeDigest encodeSig nonce fs rand digest
      key_path pem rs _ hpem hsig
    refine ⟨?_, ecdsaSign_verifies P _ _ _ rs hsig⟩
    simp [sign_digest, hpem, ecdsaLib, hsig]
  · have c1 : ((1 : ℕ) : ZMod 7) = 1 := by norm_num
    have c2 : ((2 : ℕ) : ZMod 7) = 2 := by norm_num
    have i2 : (2 : ZMod 7)⁻¹ = 4 := inv_eq_of_mul_eq_one_right (by decide)
    have e1 : ecdsaSign egParams 2 1 (1 : ZMod 7) = some (1, 3) := by
      rw [ecdsaSign]
      simp only [egParams, smul_eq_mul, id_eq, inv_one]
      decide
    have e2 : ecdsaSign egParams 2 1 (2 : ZMod 7) = some (2, 6) := by
      rw [ecdsaSign]
      simp only [egParams, smul_eq_mul, id_eq, i2]
      decide
    refine ⟨?_, ?_, by decide⟩
    · have hb : egLib.signPem [9] (List.replicate 48 0) 1 = Except.ok [1, 3] := by
        simp only [egLib, ecdsaLib]
        rw [Nat.cast_one, e1]
        rfl
      have hl : lookupFile [("k", [9])] "k" = some [9] := rfl
      simp only [sign_digest, hl]
      exact hb
    · have hb : egLib.signPem [9] (List.replicate 48 0) 2 = Except.ok [2, 6] := by
        simp only [egLib, ecdsaLib]
        rw [Nat.cast_ofNat, e2]
        rfl
      have hl : lookupFile [("k", [9])] "k" = some [9] := rfl
      simp only [sign_digest, hl]
      exact hb

/-- C3 witness: the concrete run with seed 1 over `egLib` produces a
signature that verifies against the public key `2 • G`. -/
theorem sign_digest_verifies_and_is_randomized_witness :
    sign_digest egLib [("k", [9])] 1 (List.replicate 48 0) "k" =
      .ok [(1 : ZMod 7).val, (3 : ZMod 7).val] ∧
    ecdsaVerify egParams ((2 : ZMod 7) • egParams.G) 1 ((1 : ZMod 7), (3 : ZMod 7)) = true :=
  sign_digest_verifies_and_is_randomized.1 7 (ZMod 7) egParams
    (fun _ => 2) (fun _ => 1) (fun rs => [rs.1.val, rs.2.val])
    (fun rand => (rand : ZMod 7)) [("k", [9])] 1 (List.replicate 48 0) "k"
    [9] (1, 3) (by simp) rfl
    (by
      show ecdsaSign egParams 2 1 ((1 : ℕ) : ZMod 7) = some (1, 3)
      rw [show ((1 : ℕ) : ZMod 7) = 1 from by norm_num, ecdsaSign]
      simp only [egParams, smul_eq_mul, id_eq, inv_one]
      decide)

end EccSignHelper
